import Mathlib

/-!
# Verification of the stress-management backend's feature pipeline

Shallow embedding of the repository's Python sources:

* `src/backend/src/stress_model.py`   — offline training script (namespace `StressModel`)
* `src/backend/src/run_projectml.py`  — notebook-derived script (namespace `RunProjectml`)
* `src/backend/src/app_mongodb.py`    — MongoDB-backed serving variant (namespace `AppMongo`)
* `src/backendd/app.py`               — SQLite-backed serving variant (namespace `AppSqlite`)

JSON values are modelled by `Value` (strings, rationals for numbers, null);
an input record — a JSON object / single-row pandas DataFrame — is an ordered
association list, mirroring Python dict insertion order, which `pd.DataFrame([data])`
preserves as column order.  Library behavior the code relies on
(pandas `to_datetime`, sklearn `OneHotEncoder`/`StandardScaler`/`LabelEncoder`,
NumPy float coercion) is embedded per the documented semantics of those calls,
restricted to the value domain this application exercises.
-/

/-- A JSON / pandas cell value: a string, a number (ℚ; the sources use
floats, embedded as rationals), or null/NaN. -/
inductive Value where
  | str (s : String)
  | num (q : ℚ)
  | vnull
deriving DecidableEq

/-- One input record: an ordered field-name → value map (JSON object order,
which is also the single-row DataFrame's column order). -/
abbrev Record := List (String × Value)

/-- Column names of a record / single-row DataFrame. -/
def rkeys (r : Record) : List String := r.map Prod.fst

/-- `data[k]` / column lookup: first entry with the given key. -/
def rget? (r : Record) (k : String) : Option Value :=
  (r.find? (fun kv => kv.1 == k)).map Prod.snd

/-- Accumulates a decimal-digit run at the head of a char list, returning
(value, number of digits consumed, rest). -/
def digitsPrefixAux : List Char → Nat → Nat → Nat × Nat × List Char
  | [], acc, n => (acc, n, [])
  | c :: cs, acc, n =>
    if c.isDigit then digitsPrefixAux cs (acc * 10 + (c.toNat - 48)) (n + 1)
    else (acc, n, c :: cs)

/-- Handles the tail of a clock string after "H:MM": empty (24-hour reading)
or an AM/PM marker in either case (12-hour reading). -/
def parseMeridiem (h m : Nat) : List Char → Option (Nat × Nat)
  | [] => if h ≤ 23 then some (h, m) else none
  | [a, p] =>
    if (a = 'A' ∨ a = 'a') ∧ (p = 'M' ∨ p = 'm') then
      if 1 ≤ h ∧ h ≤ 12 then some (h % 12, m) else none
    else if (a = 'P' ∨ a = 'p') ∧ (p = 'M' ∨ p = 'm') then
      if 1 ≤ h ∧ h ≤ 12 then some (h % 12 + 12, m) else none
    else none
  | _ => none

/-- Models `pandas.to_datetime` on the clock-time strings this application
feeds it ("H:MM" / "HH:MM", optionally followed by AM/PM in either case,
with an optional space): returns the parsed (hour, minute) with hour < 24 and
minute < 60, or `none` when the string does not parse (pandas raises there,
which the callers catch).  Other pandas-parseable formats (full dates, etc.)
are outside the value domain exercised by the repository. -/
def parseClock (s : String) : Option (Nat × Nat) :=
  let d1 := digitsPrefixAux s.data 0 0
  if d1.2.1 = 0 ∨ 2 < d1.2.1 then none else
  match d1.2.2 with
  | ':' :: r2 =>
    let d2 := digitsPrefixAux r2 0 0
    if d2.2.1 = 0 ∨ 2 < d2.2.1 ∨ 60 ≤ d2.1 then none else
    parseMeridiem d1.1 d2.1
      (if d2.2.2.head? = some ' ' then d2.2.2.tail else d2.2.2)
  | _ => none

/-- Models `pandas.to_datetime` applied to a raw number: pandas reads it as a
nanoseconds-since-epoch timestamp, so `hour*60 + minute` is the minute-of-day
of that instant. -/
def pdNumMinutes (q : ℚ) : Nat :=
  ((Int.floor (q / 60000000000)) % 1440).toNat

/-- Models Python `float(s)` on a decimal literal: optional sign, digits,
optional fractional part.  Returns `none` when the string is not a numeric
literal (Python raises `ValueError` there).  Exponent notation is outside the
value domain this application exercises. -/
def parseFloat? (s : String) : Option ℚ :=
  let chars := s.data
  let (sgn, rest) :=
    match chars with
    | '-' :: cs => ((-1 : ℚ), cs)
    | '+' :: cs => ((1 : ℚ), cs)
    | cs => ((1 : ℚ), cs)
  let (ip, ipn, r1) := digitsPrefixAux rest 0 0
  match r1 with
  | [] => if ipn = 0 then none else some (sgn * ip)
  | '.' :: r2 =>
    let (fp, fpn, r3) := digitsPrefixAux r2 0 0
    if r3 = [] ∧ 0 < ipn + fpn then
      some (sgn * ((ip : ℚ) + (fp : ℚ) / (10 : ℚ) ^ fpn))
    else none
  | _ => none

/-- Models NumPy's float coercion of an object-dtype cell, as performed by
sklearn's input validation before `transform`/`predict`: numbers pass
through, numeric strings convert, other strings raise, and null/NaN is
rejected by the "Input contains NaN" check.  `none` models the raised
error. -/
def valueToFloat : Value → Option ℚ
  | .num q => some q
  | .str s => parseFloat? s
  | .vnull => none

/-- Coerces a whole row, failing on the first non-convertible cell. -/
def toFloats : List Value → Option (List ℚ)
  | [] => some []
  | v :: vs =>
    match valueToFloat v, toFloats vs with
    | some q, some qs => some (q :: qs)
    | _, _ => none

/-! ## sklearn preprocessing objects -/

/-- sklearn `StandardScaler._handle_zeros_in_scale`: a fitted standard
deviation of zero (a constant training column) is replaced by 1 before
dividing, so the transform never divides by zero. -/
def fitScale (std : ℚ) : ℚ := if std = 0 then 1 else std

/-- One cell of `StandardScaler.transform`: `(v - mean_) / scale_`. -/
def scaleOne (mean std v : ℚ) : ℚ := (v - mean) / fitScale std

/-- A fitted `StandardScaler`: per feature (in `feature_names_in_` order) the
fitted mean and the fitted standard deviation `sqrt(var_)` (before the
zero-replacement that produces `scale_`). -/
structure StandardScaler where
  params : List (String × ℚ × ℚ)

/-- `feature_names_in_` of the fitted scaler. -/
def StandardScaler.featureNames (sc : StandardScaler) : List String :=
  sc.params.map Prod.fst

/-- `StandardScaler.transform` on a named single-row column block: sklearn
validates that the incoming DataFrame's columns equal `feature_names_in_`
(raising on any mismatch, in particular on a missing feature), coerces cells
to float (raising on non-numeric strings and on NaN), and scales each cell
with the fit-time parameters. -/
def StandardScaler.transform (sc : StandardScaler) (cols : List String)
    (vals : List Value) : Except String (List ℚ) :=
  if cols ≠ sc.featureNames then .error "The feature names should match those that were passed during fit" else
  match toFloats vals with
  | none => .error "could not convert input to float"
  | some qs => .ok (List.zipWith (fun p v => scaleOne p.2.1 p.2.2 v) sc.params qs)

/-- A fitted `OneHotEncoder(sparse_output=False, drop=None,
handle_unknown='ignore')` (as constructed at stress_model.py:105): per
categorical feature (in fitted order) the list of observed category values
(`categories_`). -/
structure OneHotEncoder where
  categories : List (String × List String)

/-- `feature_names_in_` of the fitted encoder. -/
def OneHotEncoder.featureNames (o : OneHotEncoder) : List String :=
  o.categories.map Prod.fst

/-- The indicator block for one categorical field: one column per fitted
category, 1 where the cell equals that category and 0 elsewhere.  With
`handle_unknown='ignore'`, a value matching no fitted category yields the
all-zero block. -/
def oheIndicator (vocab : List String) (v : Value) : List ℚ :=
  vocab.map (fun c => if v = Value.str c then 1 else 0)

/-- The encoded columns (`get_feature_names_out` name, cell value) for one
row, concatenated over the fitted fields in fitted order. -/
def OneHotEncoder.encodedCols (o : OneHotEncoder) (vals : List Value) :
    List (String × ℚ) :=
  ((o.categories.zip vals).map
    (fun fv => List.zip (fv.1.2.map (fun c => fv.1.1 ++ "_" ++ c))
      (oheIndicator fv.1.2 fv.2))).flatten

/-- `OneHotEncoder.transform` on a named single-row column block: sklearn
validates the column names against `feature_names_in_`; unknown category
values do not raise (handle_unknown='ignore') and produce zero rows. -/
def OneHotEncoder.transform (o : OneHotEncoder) (cols : List String)
    (vals : List Value) : Except String (List (String × ℚ)) :=
  if cols ≠ o.featureNames then .error "The feature names should match those that were passed during fit"
  else .ok (o.encodedCols vals)

/-- The fitted classifier inside the persisted bundle: sklearn's `predict`
validates the feature count against fit time (`n_features_in_`) and requires
an all-float row; the decision function itself is opaque to this development
and is carried as `predictFn` (and `predict_proba`, when the estimator has
one, as `probaFn`). -/
structure Classifier where
  nFeatures : Nat
  predictFn : List ℚ → Nat
  probaFn : Option (List ℚ → List ℚ)

/-- `model.predict(row)[0]`: float-coerce, check the feature count, apply. -/
def Classifier.predict (c : Classifier) (row : List Value) : Except String Nat :=
  match toFloats row with
  | none => .error "could not convert string to float"
  | some qs =>
    if qs.length ≠ c.nFeatures then .error "X has a wrong number of features"
    else .ok (c.predictFn qs)

/-- `model.predict_proba(row)[0]`, when the estimator supports it. -/
def Classifier.proba (c : Classifier) (row : List Value) : Except String (List ℚ) :=
  match c.probaFn with
  | none => .error "no predict_proba"
  | some f =>
    match toFloats row with
    | none => .error "could not convert string to float"
    | some qs =>
      if qs.length ≠ c.nFeatures then .error "X has a wrong number of features"
      else .ok (f qs)

/-- The persisted model bundle (`stress_model.pkl`), a Python dict: `Option`
fields model keys that may be absent (absent key ⇒ `KeyError` on `[...]`
access, `None`/default on `.get` access). -/
structure ModelData where
  model : Classifier
  scaler : Option StandardScaler
  onehot_encoder : Option OneHotEncoder
  cat_cols : Option (List String)
  numeric_cols : Option (List String)
  label_encoders : Option (List (String × List String))
  target_mapping : Option (List (String × Nat))
  inverse_mapping : Option (List (Nat × String))

/-- The hard-coded default categorical column list (app_mongodb.py:123-124,
identical to stress_model.py:82-83). -/
def defaultCatCols : List String :=
  ["Gender", "Occupation", "Marital_Status", "Smoking_Habit",
   "Meditation_Practice", "Exercise_Type"]

/-- The hard-coded default numeric column list (app_mongodb.py:125-130;
stress_model.py:86-89 lists the first 13 and then extends with the two time
columns at line 101). -/
def defaultNumericCols : List String :=
  ["Age", "Sleep_Duration", "Sleep_Quality", "Physical_Activity",
   "Screen_Time", "Caffeine_Intake", "Alcohol_Intake", "Work_Hours",
   "Travel_Time", "Social_Interactions", "Blood_Pressure",
   "Cholesterol_Level", "Blood_Sugar_Level", "Wake_Up_Time", "Bed_Time"]

/-- The two time-of-day columns (app_mongodb.py:136, stress_model.py:92). -/
def timeCols : List String := ["Wake_Up_Time", "Bed_Time"]

/-! ## stress_model.py — offline training script -/

namespace StressModel

/-- stress_model.py:52-60 `time_to_minutes`: null → NaN, parseable →
`hour*60 + minute`, unparseable → NaN.  NaN is modelled as `none`. -/
def time_to_minutes (t : Value) : Option Nat :=
  match t with
  | .vnull => none
  | .str s => (parseClock s).map (fun hm => hm.1 * 60 + hm.2)
  | .num q => some (pdNumMinutes q)

/-- stress_model.py:123 / 299: the target encoding `{'Low': 1, 'Medium': 2,
'High': 3}`. -/
def target_mapping : List (String × Nat) :=
  [("Low", 1), ("Medium", 2), ("High", 3)]

/-- stress_model.py:300: the persisted inverse mapping
`{1: 'Low', 2: 'Medium', 3: 'High'}`. -/
def inverse_mapping : List (Nat × String) :=
  [(1, "Low"), (2, "Medium"), (3, "High")]

/-- stress_model.py:291-303 `save_model`: the dict persisted to
`stress_model.pkl`.  Note which keys it contains: `model`, `scaler`,
`onehot_encoder`, `cat_cols`, `numeric_cols`, `target_mapping`,
`inverse_mapping` — and no `label_encoders` key. -/
def save_model_bundle (model : Classifier) (scaler : StandardScaler)
    (ohe : OneHotEncoder) (cat_cols numeric_cols : List String) : ModelData :=
  { model := model
    scaler := some scaler
    onehot_encoder := some ohe
    cat_cols := some cat_cols
    numeric_cols := some numeric_cols
    label_encoders := none
    target_mapping := some target_mapping
    inverse_mapping := some inverse_mapping }

/-- Models `sklearn.utils.resample(rows, replace=False, n_samples=n,
random_state=42)`: raises when asked for more samples than rows without
replacement, otherwise returns a deterministic (seeded) subset of exactly `n`
rows.  Which subset the fixed seed selects is irrelevant to every property
proved here (they depend only on label counts, and each call samples within a
single class), so the subset is modelled as the first `n` rows. -/
def resample (rows : List α) (n : Nat) : Except String (List α) :=
  if n ≤ rows.length then .ok (rows.take n)
  else .error "Cannot sample more samples than the population when replace is False"

/-- stress_model.py:121-142, the target-encoding and class-balancing steps of
`preprocess_data`: map the `Stress_Detection` string through
`target_mapping` (non-matching labels become NaN = `none`), split by class
code 1/2/3, take the minority class size, downsample each class to it
(without replacement, seed 42), and concatenate.  Rows are carried as
(payload, label) pairs. -/
def balance (rows : List (α × String)) : Except String (List (α × Option Nat)) :=
  let data := rows.map (fun r => (r.1, (target_mapping.find? (fun p => p.1 == r.2)).map Prod.snd))
  let df_low := data.filter (fun r => r.2 == some 1)
  let df_med := data.filter (fun r => r.2 == some 2)
  let df_high := data.filter (fun r => r.2 == some 3)
  let min_class_size := min (min df_low.length df_med.length) df_high.length
  match resample df_low min_class_size, resample df_med min_class_size,
        resample df_high min_class_size with
  | .ok l, .ok m, .ok h => .ok (l ++ m ++ h)
  | .error e, _, _ => .error e
  | _, .error e, _ => .error e
  | _, _, .error e => .error e

end StressModel

/-! ## run_projectml.py — notebook-derived script -/

namespace RunProjectml

/-- run_projectml.py:46-55 (CELL 4): split by the string label and downsample
`Medium` and `High` — to the size of the `Low` class, not to the minority
class size — then concatenate with the untouched `Low` rows. -/
def balance (rows : List (α × String)) : Except String (List (α × String)) :=
  let df_low := rows.filter (fun r => r.2 == "Low")
  let df_med := rows.filter (fun r => r.2 == "Medium")
  let df_high := rows.filter (fun r => r.2 == "High")
  match StressModel.resample df_med df_low.length,
        StressModel.resample df_high df_low.length with
  | .ok m, .ok h => .ok (df_low ++ m ++ h)
  | .error e, _ => .error e
  | _, .error e => .error e

end RunProjectml

/-- The outcome of a serving variant's `preprocess_input`: Python `None`
(returned when the model bundle is not loaded), a feature row, or a raised
exception (which `predict_stress` catches). -/
inductive PreprocResult where
  | pynone
  | ok (row : List Value)
  | exn (msg : String)
deriving DecidableEq

/-! ## app_mongodb.py — MongoDB-backed serving variant -/

namespace AppMongo

/-- app_mongodb.py:105-113 `time_to_minutes`: null → 420, parseable →
`hour*60 + minute`, unparseable → 420. -/
def time_to_minutes (t : Value) : Nat :=
  match t with
  | .vnull => 420
  | .str s =>
    match parseClock s with
    | some hm => hm.1 * 60 + hm.2
    | none => 420
  | .num q => pdNumMinutes q

/-- app_mongodb.py:136-139: `for col in time_cols: if col in df.columns:
df[col] = df[col].apply(time_to_minutes)`. -/
def applyTimeCols (df : Record) : Record :=
  timeCols.foldl
    (fun d c =>
      if c ∈ rkeys d then
        d.map (fun kv => if kv.1 = c then (kv.1, Value.num (time_to_minutes kv.2)) else kv)
      else d)
    df

/-- Writes scaled values back into the row in place (`df[existing] = ...`):
entries whose key appears in the updates get the new numeric value, others
are untouched; column order is preserved. -/
def updateCols (upds : List (String × ℚ)) (df : Record) : Record :=
  df.map (fun kv =>
    match upds.find? (fun p => p.1 == kv.1) with
    | some p => (kv.1, Value.num p.2)
    | none => kv)

/-- app_mongodb.py:115-159 `preprocess_input`:
1. return `None` when the bundle is not loaded;
2. read `onehot_encoder` / `scaler` / `cat_cols` / `numeric_cols` from the
   bundle via `.get` (with the hard-coded default column lists);
3. convert the time columns that are present;
4. one-hot encode — only when the encoder exists **and every** categorical
   column is present in the record; otherwise this step is skipped and the
   raw categorical values stay in the row;
5. scale exactly the numeric columns present in the record
   (`existing_numeric_cols`) through the fitted scaler;
6. drop `Stress_Detection` if present and return the row values.
A raised library exception at any step is `exn`. -/
def preprocess_input (model_data : Option ModelData) (data : Record) : PreprocResult :=
  match model_data with
  | none => .pynone
  | some md =>
    let cat_cols := md.cat_cols.getD defaultCatCols
    let numeric_cols := md.numeric_cols.getD defaultNumericCols
    let df := applyTimeCols data
    let step2 : Except String Record :=
      match md.onehot_encoder with
      | some ohe =>
        if cat_cols.all (fun c => (rkeys df).contains c) then
          match ohe.transform cat_cols (cat_cols.map (fun c => (rget? df c).getD Value.vnull)) with
          | .error e => .error e
          | .ok enc =>
            .ok ((df.filter (fun kv => !(cat_cols.contains kv.1))) ++
                 enc.map (fun p => (p.1, Value.num p.2)))
        else .ok df
      | none => .ok df
    match step2 with
    | .error e => .exn e
    | .ok df2 =>
      let existing := numeric_cols.filter (fun c => (rkeys df2).contains c)
      let step3 : Except String Record :=
        match md.scaler with
        | some sc =>
          if 0 < existing.length then
            match sc.transform existing (existing.map (fun c => (rget? df2 c).getD Value.vnull)) with
            | .error e => .error e
            | .ok scaled => .ok (updateCols (existing.zip scaled) df2)
          else .ok df2
        | none => .ok df2
      match step3 with
      | .error e => .exn e
      | .ok df3 =>
        .ok ((df3.filter (fun kv => kv.1 != "Stress_Detection")).map Prod.snd)

/-- app_mongodb.py:246: `model_data['label_encoders']['Stress_Detection']
.inverse_transform([prediction])[0]`.  A missing `label_encoders` (or
`Stress_Detection`) key raises `KeyError`; `LabelEncoder.inverse_transform`
is `classes_[code]`, raising on an out-of-range code. -/
def decode_prediction (label_encoders : Option (List (String × List String)))
    (pred : Nat) : Except String String :=
  match label_encoders with
  | none => .error "KeyError: label_encoders"
  | some les =>
    match (les.find? (fun p => p.1 == "Stress_Detection")).map Prod.snd with
    | none => .error "KeyError: Stress_Detection"
    | some classes =>
      match classes.get? pred with
      | none => .error "y contains previously unseen labels"
      | some l => .ok l

end AppMongo

/-! ## backendd/app.py — SQLite-backed serving variant -/

namespace AppSqlite

/-- app.py:107-111: the fixed feature order handed to the classifier. -/
def features : List String :=
  ["Age", "Gender", "Occupation", "Marital_Status", "Sleep_Duration",
   "Sleep_Quality", "Wake_Up_Time", "Bed_Time", "Physical_Activity",
   "Screen_Time", "Caffeine_Intake", "Alcohol_Intake", "Smoking_Habit",
   "Work_Hours", "Travel_Time", "Social_Interactions", "Meditation_Practice",
   "Exercise_Type", "Blood_Pressure", "Cholesterol_Level", "Blood_Sugar_Level"]

/-- app.py:117-121: the columns this variant label-encodes. -/
def categorical_cols : List String :=
  ["Gender", "Occupation", "Marital_Status", "Sleep_Quality",
   "Wake_Up_Time", "Bed_Time", "Physical_Activity", "Caffeine_Intake",
   "Alcohol_Intake", "Smoking_Habit", "Social_Interactions",
   "Meditation_Practice", "Exercise_Type", "Blood_Pressure",
   "Cholesterol_Level", "Blood_Sugar_Level"]

/-- app.py:132: the columns this variant scales. -/
def numerical_cols : List String :=
  ["Age", "Sleep_Duration", "Screen_Time", "Work_Hours", "Travel_Time"]

/-- app.py:123-129, the label-encoding loop: for each categorical column
that has a fitted `LabelEncoder` in the bundle, look the raw value up
(`data[col]` — `KeyError` when the field is absent from the record); a value
among the fitted classes becomes its index (`le.transform`), anything else
becomes the literal default 0. -/
def encodeCats (les : List (String × List String)) :
    List String → Record → Record → Except String Record
  | [], _, df => .ok df
  | c :: cs, data, df =>
    match (les.find? (fun p => p.1 == c)).map Prod.snd with
    | none => encodeCats les cs data df
    | some classes =>
      match rget? data c with
      | none => .error ("KeyError: " ++ c)
      | some v =>
        let idx : ℚ :=
          match v with
          | .str s => if classes.contains s then (classes.indexOf s : ℚ) else 0
          | _ => 0
        encodeCats les cs data
          (df.map (fun kv => if kv.1 = c then (kv.1, Value.num idx) else kv))

/-- app.py:101-135 `preprocess_input`: `None` when the bundle is not loaded;
otherwise label-encode the categorical columns (`model_data['label_encoders']`
— `KeyError` when that key is absent from the bundle), scale the five numeric
columns (`df[numerical_cols]` raises when any is absent), and return the row
reordered to `features` order (`df[features]` raises when any is absent). -/
def preprocess_input (model_data : Option ModelData) (data : Record) : PreprocResult :=
  match model_data with
  | none => .pynone
  | some md =>
    match md.label_encoders with
    | none => .exn "KeyError: label_encoders"
    | some les =>
      match encodeCats les categorical_cols data data with
      | .error e => .exn e
      | .ok df =>
        if numerical_cols.all (fun c => (rkeys df).contains c) then
          match md.scaler with
          | none => .exn "KeyError: scaler"
          | some sc =>
            match sc.transform numerical_cols
                (numerical_cols.map (fun c => (rget? df c).getD Value.vnull)) with
            | .error e => .exn e
            | .ok scaled =>
              let df2 := AppMongo.updateCols (numerical_cols.zip scaled) df
              match features.mapM (fun c => rget? df2 c) with
              | none => .exn "KeyError: missing feature column"
              | some row => .ok row
        else .exn "KeyError: missing numerical column"

/-- app.py:234: `model_data['label_encoders']['Stress_Detection']
.inverse_transform([prediction])[0]` — character-for-character the same
decoding expression as app_mongodb.py:246. -/
def decode_prediction (label_encoders : Option (List (String × List String)))
    (pred : Nat) : Except String String :=
  match label_encoders with
  | none => .error "KeyError: label_encoders"
  | some les =>
    match (les.find? (fun p => p.1 == "Stress_Detection")).map Prod.snd with
    | none => .error "KeyError: Stress_Detection"
    | some classes =>
      match classes.get? pred with
      | none => .error "y contains previously unseen labels"
      | some l => .ok l

end AppSqlite

/-! ## Serving endpoints and the prediction-history store -/

/-- Python `round(x, nd)`: round half to even at `nd` decimal places. -/
def pyRoundTo (nd : Nat) (q : ℚ) : ℚ :=
  let m : ℚ := (10 : ℚ) ^ nd
  let r := q * m
  let f : Int := Int.floor r
  let frac : ℚ := r - (f : ℚ)
  let n : Int :=
    if frac < 1 / 2 then f
    else if 1 / 2 < frac then f + 1
    else if f % 2 = 0 then f else f + 1
  (n : ℚ) / m

/-- Python truthiness of `data.get('user_id')` (`if user_id:`): absent key
and `None` are falsy, a string is truthy unless empty, a number unless 0. -/
def pyTruthy : Option Value → Bool
  | none => false
  | some .vnull => false
  | some (.str s) => s != ""
  | some (.num q) => q != 0

/-- One row of the `stress_history` store (MongoDB collection /
SQLite table): the fields written by `predict_stress` in both variants.
`prediction_date` is the write-time timestamp; the store keeps rows in
insertion order and both variants only ever sort/filter on this field, with
timestamps nondecreasing in insertion order. -/
structure HistRec where
  user_id : Value
  stress_level : String
  input_data : Record
  prediction_date : Nat
deriving DecidableEq

/-- The `/api/predict` JSON response, reduced to status code, decoded label
and the probability map. -/
structure PredictResp where
  status : Nat
  stress_level : Option String
  probabilities : Option (List (String × ℚ))
deriving DecidableEq

/-- app_mongodb.py:235-244 (identically app.py:221-231): run the classifier,
then build the probability dict from `predict_proba` row positions 0/1/2 as
High/Low/Medium percentages. -/
def runModelAndProba (md : ModelData) (row : List Value) :
    Except String (Nat × Option (List (String × ℚ))) :=
  match md.model.predict row with
  | .error e => .error e
  | .ok prediction =>
    match md.model.probaFn with
    | none => .ok (prediction, none)
    | some _ =>
      match md.model.proba row with
      | .error e => .error e
      | .ok p =>
        match p.get? 0, p.get? 1, p.get? 2 with
        | some p0, some p1, some p2 =>
          .ok (prediction, some
            [("High", pyRoundTo 2 (p0 * 100)),
             ("Low", pyRoundTo 2 (p1 * 100)),
             ("Medium", pyRoundTo 2 (p2 * 100))])
        | _, _, _ => .error "IndexError: list index out of range"

namespace AppMongo

/-- app_mongodb.py:220-265 `predict_stress` (`POST /api/predict`): 500 when
the bundle is not loaded; otherwise preprocess (an exception anywhere in the
`try` block yields 500 via the catch-all handler, a `None` row yields 400),
predict, build probabilities, decode the label through
`model_data['label_encoders']`, and only then — on full success, when
`user_id` is truthy — append one document to `stress_history`. -/
def predict_stress (model_data : Option ModelData) (data : Record) (now : Nat)
    (hist : List HistRec) : PredictResp × List HistRec :=
  match model_data with
  | none => (⟨500, none, none⟩, hist)
  | some md =>
    let user_id := rget? data "user_id"
    match preprocess_input (some md) data with
    | .pynone => (⟨400, none, none⟩, hist)
    | .exn _ => (⟨500, none, none⟩, hist)
    | .ok row =>
      match runModelAndProba md row with
      | .error _ => (⟨500, none, none⟩, hist)
      | .ok (prediction, probabilities) =>
        match decode_prediction md.label_encoders prediction with
        | .error _ => (⟨500, none, none⟩, hist)
        | .ok stress_level =>
          let hist2 :=
            if pyTruthy user_id then
              hist ++ [⟨user_id.getD Value.vnull, stress_level, data, now⟩]
            else hist
          (⟨200, some stress_level, probabilities⟩, hist2)

end AppMongo

namespace AppSqlite

/-- app.py:204-253 `predict_stress`: the same request flow as the MongoDB
variant (500 on missing bundle, 400 on a `None` row, 500 via the catch-all
on any exception, insert into `stress_history` only after a fully successful
prediction and only for a truthy `user_id`). -/
def predict_stress (model_data : Option ModelData) (data : Record) (now : Nat)
    (hist : List HistRec) : PredictResp × List HistRec :=
  match model_data with
  | none => (⟨500, none, none⟩, hist)
  | some md =>
    let user_id := rget? data "user_id"
    match preprocess_input (some md) data with
    | .pynone => (⟨400, none, none⟩, hist)
    | .exn _ => (⟨500, none, none⟩, hist)
    | .ok row =>
      match runModelAndProba md row with
      | .error _ => (⟨500, none, none⟩, hist)
      | .ok (prediction, probabilities) =>
        match decode_prediction md.label_encoders prediction with
        | .error _ => (⟨500, none, none⟩, hist)
        | .ok stress_level =>
          let hist2 :=
            if pyTruthy user_id then
              hist ++ [⟨user_id.getD Value.vnull, stress_level, data, now⟩]
            else hist
          (⟨200, some stress_level, probabilities⟩, hist2)

end AppSqlite

namespace Endpoints

/-!
The remaining endpoints that touch `stress_history` only read it.  Their
computation is line-identical between app.py and app_mongodb.py (only the
storage API differs); each definition cites both.  A Mongo
`find(...).sort('prediction_date', -1)` / SQLite `ORDER BY prediction_date
DESC` is the reverse of insertion order, since rows are stamped with
nondecreasing write times.
-/

/-- app.py:314 / app_mongodb.py:320: `{'Low': 1, 'Medium': 2, 'High': 3}`,
read with `.get(level, 2)`. -/
def scoreOf (l : String) : Nat :=
  (([("Low", 1), ("Medium", 2), ("High", 3)].find?
      (fun p : String × Nat => p.1 == l)).map Prod.snd).getD 2

/-- The `/api/forecast` response body. -/
structure ForecastResp where
  status : Nat
  forecast : String
  average_level : Option String
  message : String
  data_points : Option Nat
deriving DecidableEq

/-- app.py:289-334 / app_mongodb.py:300-340 `forecast_stress`: read the ten
most recent predictions of the user, score them, and classify the trend from
newest minus oldest score. -/
def forecast_stress (uid : String) (hist : List HistRec) : ForecastResp :=
  let history := ((hist.filter (fun h => h.user_id == Value.str uid)).reverse).take 10
  if history.isEmpty then
    ⟨200, "Insufficient data", none,
     "Need more stress assessments for accurate forecasting", none⟩
  else
    let scores := history.map (fun h => scoreOf h.stress_level)
    let avg : ℚ := (scores.sum : ℚ) / (scores.length : ℚ)
    let trend : Int :=
      if 1 < scores.length then (scores.headD 0 : Int) - (scores.getLastD 0 : Int) else 0
    let fm : String × String :=
      if 0 < trend then
        ("Increasing", "Your stress levels are showing an upward trend. Take preventive measures.")
      else if trend < 0 then
        ("Decreasing", "Great! Your stress levels are improving. Keep up the good work!")
      else ("Stable", "Your stress levels are stable. Continue your current routine.")
    let average_level :=
      if avg < 3 / 2 then "Low" else if avg < 5 / 2 then "Medium" else "High"
    ⟨200, fm.1, some average_level, fm.2, some history.length⟩

/-- app.py:612-625 / app_mongodb.py:702-720 `get_stress_history`
(`GET /api/history/<user_id>`): the user's rows, newest first. -/
def get_stress_history (uid : String) (hist : List HistRec) : List HistRec :=
  (hist.filter (fun h => h.user_id == Value.str uid)).reverse

/-- app.py:465-478 / app_mongodb.py:469-471: the `{'Low','Medium','High'}`
count dict, incremented with `counts.get(level, 0) + 1` (so unexpected
labels are added as new keys). -/
def countsFor (hs : List HistRec) : List (String × Nat) :=
  hs.foldl
    (fun acc h =>
      if acc.any (fun p => p.1 == h.stress_level) then
        acc.map (fun p => if p.1 == h.stress_level then (p.1, p.2 + 1) else p)
      else acc ++ [(h.stress_level, 1)])
    [("Low", 0), ("Medium", 0), ("High", 0)]

/-- Python `max(counts, key=counts.get)`: the first key attaining the
maximal count, in dict order. -/
def dominantLevel (counts : List (String × Nat)) : Option String :=
  match counts with
  | [] => none
  | c :: rest => some (rest.foldl (fun b p => if b.2 < p.2 then p else b) c).1

/-- The weekly/monthly report response body. -/
structure ReportResp where
  status : Nat
  total_assessments : Option Nat
  distribution : Option (List (String × Nat))
  percentages : Option (List (String × ℚ))
  dominant_level : Option String
deriving DecidableEq

/-- app.py:445-480 / app_mongodb.py:453-491 `weekly_report`: the user's rows
from the last 7 days (oldest first), with counts, rounded percentages and
the dominant level; a bare message when there are none. -/
def weekly_report (uid : String) (now : Nat) (hist : List HistRec) : ReportResp :=
  let week_ago := now - 7 * 86400
  let history := hist.filter
    (fun h => h.user_id == Value.str uid && week_ago ≤ h.prediction_date)
  if history.isEmpty then ⟨200, none, none, none, none⟩
  else
    let counts := countsFor history
    let total := history.length
    let percentages := counts.map
      (fun p => (p.1, pyRoundTo 1 ((p.2 : ℚ) / (total : ℚ) * 100)))
    ⟨200, some total, some counts, some percentages, dominantLevel counts⟩

/-- app.py:482-516 / app_mongodb.py:493-530 `monthly_report`: as the weekly
report over the last 30 days. -/
def monthly_report (uid : String) (now : Nat) (hist : List HistRec) : ReportResp :=
  let month_ago := now - 30 * 86400
  let history := hist.filter
    (fun h => h.user_id == Value.str uid && month_ago ≤ h.prediction_date)
  if history.isEmpty then ⟨200, none, none, none, none⟩
  else
    let counts := countsFor history
    let total := history.length
    let percentages := counts.map
      (fun p => (p.1, pyRoundTo 1 ((p.2 : ℚ) / (total : ℚ) * 100)))
    ⟨200, some total, some counts, some percentages, dominantLevel counts⟩

/-- The before/after comparison response body. -/
structure BeforeAfterResp where
  status : Nat
  before : Option String
  after : Option String
  improvement : Option String
deriving DecidableEq

/-- app.py:518-564 / app_mongodb.py:532-578 `before_after_report`: compare
the user's first and latest recorded levels. -/
def before_after_report (uid : String) (hist : List HistRec) : BeforeAfterResp :=
  let mine := hist.filter (fun h => h.user_id == Value.str uid)
  match mine.head?, mine.getLast? with
  | some first, some latest =>
    let first_score := scoreOf first.stress_level
    let latest_score := scoreOf latest.stress_level
    let improvement :=
      if latest_score < first_score then "Improved"
      else if first_score < latest_score then "Declined"
      else "Stable"
    ⟨200, some first.stress_level, some latest.stress_level, some improvement⟩
  | _, _ => ⟨200, none, none, none⟩

end Endpoints

/-- The operations either backend exposes over the per-user prediction
history (`stress_history`): the two predict endpoints write, everything else
reads.  (No endpoint in either file issues an update or delete against
`stress_history`.) -/
inductive HistOp where
  | mongoPredict (md : Option ModelData) (data : Record) (now : Nat)
  | sqlitePredict (md : Option ModelData) (data : Record) (now : Nat)
  | forecast (uid : String)
  | history (uid : String)
  | weekly (uid : String) (now : Nat)
  | monthly (uid : String) (now : Nat)
  | beforeAfter (uid : String)

/-- The response of a history-touching endpoint, tagged by endpoint. -/
inductive EndpointResp where
  | predictR (r : PredictResp)
  | forecastR (r : Endpoints.ForecastResp)
  | historyR (status : Nat) (items : List HistRec)
  | reportR (r : Endpoints.ReportResp)
  | beforeAfterR (r : Endpoints.BeforeAfterResp)
deriving DecidableEq

/-- One request against the store: the endpoint's response together with the
store contents after the request. -/
def histStep : HistOp → List HistRec → EndpointResp × List HistRec
  | .mongoPredict md d now, s =>
    let r := AppMongo.predict_stress md d now s
    (.predictR r.1, r.2)
  | .sqlitePredict md d now, s =>
    let r := AppSqlite.predict_stress md d now s
    (.predictR r.1, r.2)
  | .forecast uid, s => (.forecastR (Endpoints.forecast_stress uid s), s)
  | .history uid, s => (.historyR 200 (Endpoints.get_stress_history uid s), s)
  | .weekly uid now, s => (.reportR (Endpoints.weekly_report uid now s), s)
  | .monthly uid now, s => (.reportR (Endpoints.monthly_report uid now s), s)
  | .beforeAfter uid, s => (.beforeAfterR (Endpoints.before_after_report uid s), s)

/-! ## The recommendations endpoint -/

/-- Python `str.capitalize()`: first character upper-cased, the rest
lower-cased (ASCII semantics, which is the domain of the route values this
endpoint compares against). -/
def pyCapitalize (s : String) : String :=
  match s.data with
  | [] => ""
  | c :: cs => String.mk (c.toUpper :: cs.map Char.toLower)

/-- One entry of the `RECOMMENDATIONS` table. -/
structure RecItem where
  title : String
  description : String
  icon : String
deriving DecidableEq

/-- The `'Low'` recommendation list (app.py:341-346 = app_mongodb.py:347-352). -/
def lowRecs : List RecItem :=
  [⟨"Maintain Your Routine", "Continue your current healthy habits", "✅"⟩,
   ⟨"Daily Meditation", "10-15 minutes of mindfulness", "🧘"⟩,
   ⟨"Stay Active", "Regular exercise keeps stress away", "🏃"⟩,
   ⟨"Quality Sleep", "Maintain 7-8 hours of sleep", "😴"⟩]

/-- The `'Medium'` recommendation list (app.py:347-354 = app_mongodb.py:353-360). -/
def mediumRecs : List RecItem :=
  [⟨"Deep Breathing Exercises", "Practice 4-7-8 breathing technique", "🌬️"⟩,
   ⟨"Take Regular Breaks", "Step away from work every 90 minutes", "⏰"⟩,
   ⟨"Reduce Caffeine", "Limit coffee intake after noon", "☕"⟩,
   ⟨"Connect with Others", "Talk to friends or family", "👥"⟩,
   ⟨"Nature Walk", "20 minutes outdoors daily", "🌳"⟩,
   ⟨"Journaling", "Write down your thoughts", "📝"⟩]

/-- The `'High'` recommendation list (app.py:355-364 = app_mongodb.py:361-370). -/
def highRecs : List RecItem :=
  [⟨"STOP & Breathe", "Take 5 deep breaths right now", "🛑"⟩,
   ⟨"Progressive Muscle Relaxation", "Release tension from your body", "💆"⟩,
   ⟨"Prioritize Sleep", "Get at least 8 hours tonight", "🛏️"⟩,
   ⟨"Limit Screen Time", "Digital detox for 2 hours before bed", "📱"⟩,
   ⟨"Talk to Someone", "Share your feelings with a trusted person", "💬"⟩,
   ⟨"Light Exercise", "A short walk can help immensely", "🚶"⟩,
   ⟨"Avoid Stimulants", "No caffeine or alcohol today", "🚫"⟩,
   ⟨"Listen to Calming Music", "Relaxing sounds can reduce stress", "🎵"⟩]

/-- The `RECOMMENDATIONS` dict, identical in app.py:340-365 and
app_mongodb.py:346-371. -/
def RECOMMENDATIONS : List (String × List RecItem) :=
  [("Low", lowRecs), ("Medium", mediumRecs), ("High", highRecs)]

/-- `GET /api/recommendations/<stress_level>` (app.py:367-379 =
app_mongodb.py:373-385): capitalize the route argument; an unknown level is
a 400 error, a known one returns the level, its fixed list and the list's
length as `count`. -/
def get_recommendations (stress_level : String) :
    Nat × Option (String × List RecItem × Nat) :=
  let level := pyCapitalize stress_level
  match (RECOMMENDATIONS.find? (fun p => p.1 == level)).map Prod.snd with
  | none => (400, none)
  | some recs => (200, some (level, recs, recs.length))

/-! ## Concrete fitted state and records for evaluation -/

/-- The column count of the training design matrix `X` built by
`stress_model.preprocess_data`: the 21 raw features lose the 6 categorical
columns and gain one indicator column per fitted category, and the target is
dropped — i.e. the 15 numeric columns plus `Σ |categories_f|`. -/
def fittedOutputDim (ohe : OneHotEncoder) : Nat :=
  defaultNumericCols.length + (ohe.categories.map (fun p => p.2.length)).sum

/-- A concrete fitted scaler over the 15 numeric columns: `Age` with mean 30
and std 5, every other column with mean 0 and std 1. -/
def scalerEx : StandardScaler :=
  ⟨[("Age", 30, 5), ("Sleep_Duration", 0, 1), ("Sleep_Quality", 0, 1),
    ("Physical_Activity", 0, 1), ("Screen_Time", 0, 1), ("Caffeine_Intake", 0, 1),
    ("Alcohol_Intake", 0, 1), ("Work_Hours", 0, 1), ("Travel_Time", 0, 1),
    ("Social_Interactions", 0, 1), ("Blood_Pressure", 0, 1),
    ("Cholesterol_Level", 0, 1), ("Blood_Sugar_Level", 0, 1),
    ("Wake_Up_Time", 0, 1), ("Bed_Time", 0, 1)]⟩

/-- A concrete fitted encoder with two categories per field
(`fittedOutputDim` = 15 + 12 = 27). -/
def oheEx : OneHotEncoder :=
  ⟨[("Gender", ["Female", "Male"]), ("Occupation", ["Doctor", "Engineer"]),
    ("Marital_Status", ["Married", "Single"]), ("Smoking_Habit", ["No", "Yes"]),
    ("Meditation_Practice", ["No", "Yes"]), ("Exercise_Type", ["Gym", "Walking"])]⟩

/-- A concrete classifier fitted on 27 features. -/
def clfEx : Classifier := ⟨27, fun _ => 1, some (fun _ => [1 / 10, 7 / 10, 1 / 5])⟩

/-- The bundle `save_model` would persist for the fitted state above,
augmented with the `label_encoders` entry that the serving code reads when
decoding (`save_model` itself never writes that key — see the C1 theorem). -/
def bundleEx : ModelData :=
  { StressModel.save_model_bundle clfEx scalerEx oheEx defaultCatCols defaultNumericCols with
    label_encoders := some [("Stress_Detection", ["High", "Low", "Medium"])] }

/-- A record holding exactly the 21 raw feature fields of §3 of the spec
(in the fixed order of app.py:107-111), with every value a parameter: the 6
categorical and 2 time values arbitrary, the 13 numeric values numbers. -/
def validRecord (g o ms sh mp et wt bt : Value)
    (a sd sq pa st ci ai wh tt si bp cl bs : ℚ) : Record :=
  [("Age", .num a), ("Gender", g), ("Occupation", o), ("Marital_Status", ms),
   ("Sleep_Duration", .num sd), ("Sleep_Quality", .num sq),
   ("Wake_Up_Time", wt), ("Bed_Time", bt), ("Physical_Activity", .num pa),
   ("Screen_Time", .num st), ("Caffeine_Intake", .num ci),
   ("Alcohol_Intake", .num ai), ("Smoking_Habit", sh), ("Work_Hours", .num wh),
   ("Travel_Time", .num tt), ("Social_Interactions", .num si),
   ("Meditation_Practice", mp), ("Exercise_Type", et),
   ("Blood_Pressure", .num bp), ("Cholesterol_Level", .num cl),
   ("Blood_Sugar_Level", .num bs)]

/-- A fully concrete valid record, with known categorical values. -/
def validRecordC : Record :=
  validRecord (.str "Male") (.str "Engineer") (.str "Single") (.str "No")
    (.str "Yes") (.str "Gym") (.str "7:00 AM") (.str "11:30 PM")
    35 7 8 3 4 2 1 8 1 5 120 180 90

/-- `validRecordC` as `/api/predict` actually receives it: the request JSON
carries the `user_id` field alongside the feature fields
(app_mongodb.py:226-230 passes the whole `request.json` to
`preprocess_input`). -/
def validRecordUid : Record := validRecordC ++ [("user_id", .str "u1")]

/-- Projects a preprocessing outcome to the row length. -/
def rowLenOf : PreprocResult → Option Nat
  | .ok row => some row.length
  | _ => none

/-- Projects a preprocessing outcome to the row cell at an index. -/
def rowAt (p : PreprocResult) (i : Nat) : Option Value :=
  match p with
  | .ok row => row.get? i
  | _ => none

/-! ## Supporting lemmas -/

theorem parseMeridiem_bounds {h m h2 m2 : Nat} {l : List Char}
    (hp : parseMeridiem h m l = some (h2, m2)) : h2 ≤ 23 ∧ m2 = m := by
  cases l with
  | nil =>
    simp only [parseMeridiem] at hp
    split at hp
    · cases hp; omega
    · cases hp
  | cons a t =>
    cases t with
    | nil => simp only [parseMeridiem] at hp; cases hp
    | cons p t2 =>
      cases t2 with
      | nil =>
        simp only [parseMeridiem] at hp
        repeat' split at hp
        all_goals cases hp
        all_goals omega
      | cons c t3 => simp only [parseMeridiem] at hp; cases hp

theorem parseClock_bounds {s : String} {h m : Nat} (hp : parseClock s = some (h, m)) :
    h ≤ 23 ∧ m ≤ 59 := by
  simp only [parseClock] at hp
  split at hp
  · cases hp
  · split at hp
    · split at hp
      · cases hp
      · rename_i hguard
        have hb := parseMeridiem_bounds hp
        exact ⟨hb.1, by omega⟩
    · cases hp

theorem pdNumMinutes_le (q : ℚ) : pdNumMinutes q ≤ 1439 := by
  unfold pdNumMinutes
  have h1 : (0 : Int) ≤ Int.floor (q / 60000000000) % 1440 :=
    Int.emod_nonneg _ (by norm_num)
  have h2 : Int.floor (q / 60000000000) % 1440 < 1440 :=
    Int.emod_lt_of_pos _ (by norm_num)
  omega

theorem oheIndicator_unknown (vocab : List String) (v : Value)
    (hv : ∀ c ∈ vocab, v ≠ Value.str c) :
    oheIndicator vocab v = List.replicate vocab.length 0 := by
  induction vocab with
  | nil => rfl
  | cons c cs ih =>
    have h1 : v ≠ Value.str c := hv c (List.mem_cons_self c cs)
    have h2 := ih (fun c2 hc2 => hv c2 (List.mem_cons_of_mem c hc2))
    simp [oheIndicator, List.replicate_succ, if_neg h1] at h2 ⊢
    exact h2

/-! ## Claim theorems -/

/-- C1: the training script persists the fixed bijection 1→Low, 2→Medium,
3→High (`inverse_mapping`, the swap of `target_mapping`), and the two
serving variants share one decoding expression; but that expression reads
the `label_encoders` key, which `save_model` never writes, so against the
bundle persisted by training the decode raises `KeyError` (surfaced as a 500
by `/api/predict`) for every predicted class code instead of producing the
persisted mapping's label. -/
theorem claim_c1_label_decode :
    (∀ (les : Option (List (String × List String))) (p : Nat),
        AppSqlite.decode_prediction les p = AppMongo.decode_prediction les p) ∧
    StressModel.target_mapping.map (fun p => (p.2, p.1)) = StressModel.inverse_mapping ∧
    (StressModel.inverse_mapping.map Prod.fst).Nodup ∧
    (StressModel.inverse_mapping.map Prod.snd).Nodup ∧
    (∀ model sc ohe cc nc,
        (StressModel.save_model_bundle model sc ohe cc nc).label_encoders = none) ∧
    (∀ model sc ohe cc nc (p : Nat),
        AppMongo.decode_prediction
          (StressModel.save_model_bundle model sc ohe cc nc).label_encoders p =
        .error "KeyError: label_encoders") := by
  exact ⟨fun les p => rfl, by decide, by decide, by decide,
         fun _ _ _ _ _ => rfl, fun _ _ _ _ _ _ => rfl⟩

/-- C3 (amended): the serving-side `time_to_minutes` (app_mongodb.py) maps a
parseable clock string to `hour*60 + minute` ("7:00 AM" → 420, "11:30 PM" →
1410), and missing/null or unparseable input ("banana") to the fixed default
420, with every output in [0, 1439]; the training-side `time_to_minutes`
(stress_model.py / run_projectml.py) instead maps missing or unparseable
input to NaN — see the counterexample. -/
theorem claim_c3_time_normalization :
    AppMongo.time_to_minutes (.str "7:00 AM") = 420 ∧
    AppMongo.time_to_minutes (.str "11:30 PM") = 1410 ∧
    AppMongo.time_to_minutes .vnull = 420 ∧
    AppMongo.time_to_minutes (.str "banana") = 420 ∧
    (∀ s h m, parseClock s = some (h, m) →
        AppMongo.time_to_minutes (.str s) = h * 60 + m) ∧
    (∀ v, AppMongo.time_to_minutes v ≤ 1439) := by
  refine ⟨by decide, by decide, rfl, by decide, ?_, ?_⟩
  · intro s h m hp
    simp [AppMongo.time_to_minutes, hp]
  · intro v
    cases v with
    | vnull => simp [AppMongo.time_to_minutes]
    | num q => simpa [AppMongo.time_to_minutes] using pdNumMinutes_le q
    | str s =>
      show (match parseClock s with
            | some hm => hm.1 * 60 + hm.2
            | none => 420) ≤ 1439
      cases hp : parseClock s with
      | none => decide
      | some hm =>
        obtain ⟨h, m⟩ := hm
        have hb := parseClock_bounds hp
        show h * 60 + m ≤ 1439
        omega

/-- C3 witness: the parseable-string clause of the amended theorem applied
at "7:05 PM". -/
theorem claim_c3_witness :
    AppMongo.time_to_minutes (.str "7:05 PM") = 19 * 60 + 5 :=
  claim_c3_time_normalization.2.2.2.2.1 "7:05 PM" 19 5 (by decide)

/-- C3 counterexample: the training-side `time_to_minutes` cited by the
claim maps "banana" and null to NaN (`none`), not to 420. -/
theorem claim_c3_counterexample :
    StressModel.time_to_minutes (.str "banana") ≠ some 420 ∧
    StressModel.time_to_minutes .vnull ≠ some 420 ∧
    StressModel.time_to_minutes (.str "banana") = none ∧
    StressModel.time_to_minutes .vnull = none := by decide

section EvalSimp

/-!
Claims about runs of the pipeline on records with symbolic cell values are
proved by `simp`-evaluation; the definitions involved are made local simp
lemmas here.
-/

attribute [local simp] rowLenOf rowAt AppMongo.preprocess_input
  AppMongo.applyTimeCols AppMongo.updateCols AppMongo.time_to_minutes
  AppMongo.decode_prediction AppMongo.predict_stress
  OneHotEncoder.transform OneHotEncoder.encodedCols OneHotEncoder.featureNames
  oheIndicator StandardScaler.transform StandardScaler.featureNames
  rget? rkeys toFloats valueToFloat scaleOne fitScale
  bundleEx StressModel.save_model_bundle scalerEx oheEx clfEx
  defaultCatCols defaultNumericCols timeCols validRecord
  parseClock parseMeridiem digitsPrefixAux pdNumMinutes parseFloat?
  Classifier.predict Classifier.proba runModelAndProba pyTruthy pyRoundTo
  fittedOutputDim List.filter List.find?

set_option maxHeartbeats 1600000 in
/-- C4: a categorical value never observed at fit time does not raise — the
encoder's transform is total on any value row — and its indicator block is
the all-zero block; concretely, running the full MongoDB preprocessing on a
record whose `Gender` is neither fitted category yields 0 in both `Gender`
indicator cells. -/
theorem claim_c4_unknown_category : ∀ (vocab : List String) (v : Value),
    (∀ c ∈ vocab, v ≠ Value.str c) →
    oheIndicator vocab v = List.replicate vocab.length 0 ∧
    (∀ (o : OneHotEncoder) (vals : List Value),
        ∃ out, o.transform o.featureNames vals = .ok out) ∧
    (v ≠ Value.str "Female" → v ≠ Value.str "Male" →
      rowAt (AppMongo.preprocess_input (some bundleEx)
        (validRecord v (.str "Engineer") (.str "Single") (.str "No") (.str "Yes")
          (.str "Gym") (.str "7:00 AM") (.str "11:30 PM")
          35 7 8 3 4 2 1 8 1 5 120 180 90)) 15 = some (.num 0) ∧
      rowAt (AppMongo.preprocess_input (some bundleEx)
        (validRecord v (.str "Engineer") (.str "Single") (.str "No") (.str "Yes")
          (.str "Gym") (.str "7:00 AM") (.str "11:30 PM")
          35 7 8 3 4 2 1 8 1 5 120 180 90)) 16 = some (.num 0)) := by
  intro vocab v hv
  refine ⟨oheIndicator_unknown vocab v hv, ?_, ?_⟩
  · intro o vals
    exact ⟨o.encodedCols vals, by simp [OneHotEncoder.transform]⟩
  · intro h1 h2
    constructor
    · simp [h1]
    · simp [h2]

/-- C4 witness: the theorem at the two-category `Gender` vocabulary and the
unseen value "Purple". -/
theorem claim_c4_witness :
    oheIndicator ["Female", "Male"] (.str "Purple") = List.replicate 2 0 ∧
    rowAt (AppMongo.preprocess_input (some bundleEx)
      (validRecord (.str "Purple") (.str "Engineer") (.str "Single") (.str "No")
        (.str "Yes") (.str "Gym") (.str "7:00 AM") (.str "11:30 PM")
        35 7 8 3 4 2 1 8 1 5 120 180 90)) 15 = some (.num 0) := by
  have h := claim_c4_unknown_category ["Female", "Male"] (.str "Purple") (by decide)
  exact ⟨h.1, (h.2.2 (by decide) (by decide)).1⟩

/-- A record (as received by `/api/predict`: `user_id` included) from which
the required categorical field `Gender` is entirely absent; the remaining
categorical fields except `Occupation` carry numeric codes so that the run
reaches the one raw `Occupation` value. -/
def recMissingGender (vo : Value) : Record :=
  [("user_id", .num 9), ("Age", .num 35), ("Occupation", vo),
   ("Marital_Status", .num 1), ("Sleep_Duration", .num 7),
   ("Sleep_Quality", .num 8), ("Wake_Up_Time", .str "7:00 AM"),
   ("Bed_Time", .str "11:30 PM"), ("Physical_Activity", .num 3),
   ("Screen_Time", .num 4), ("Caffeine_Intake", .num 2),
   ("Alcohol_Intake", .num 1), ("Smoking_Habit", .num 0),
   ("Work_Hours", .num 8), ("Travel_Time", .num 1),
   ("Social_Interactions", .num 5), ("Meditation_Practice", .num 1),
   ("Exercise_Type", .num 0), ("Blood_Pressure", .num 120),
   ("Cholesterol_Level", .num 180), ("Blood_Sugar_Level", .num 90)]

/-- A full valid record with `Age` symbolic, plus an extra field `Extra`
outside the fitted numeric set. -/
def recC7 (a e : ℚ) : Record :=
  validRecord (.str "Male") (.str "Engineer") (.str "Single") (.str "No")
    (.str "Yes") (.str "Gym") (.str "7:00 AM") (.str "11:30 PM")
    a 7 8 3 4 2 1 8 1 5 120 180 90 ++ [("Extra", .num e)]

/-- `validRecordC` with the fitted numeric field `Age` absent. -/
def recMissingAge : Record :=
  [("Gender", .str "Male"), ("Occupation", .str "Engineer"),
   ("Marital_Status", .str "Single"), ("Sleep_Duration", .num 7),
   ("Sleep_Quality", .num 8), ("Wake_Up_Time", .str "7:00 AM"),
   ("Bed_Time", .str "11:30 PM"), ("Physical_Activity", .num 3),
   ("Screen_Time", .num 4), ("Caffeine_Intake", .num 2),
   ("Alcohol_Intake", .num 1), ("Smoking_Habit", .str "No"),
   ("Work_Hours", .num 8), ("Travel_Time", .num 1),
   ("Social_Interactions", .num 5), ("Meditation_Practice", .str "Yes"),
   ("Exercise_Type", .str "Gym"), ("Blood_Pressure", .num 120),
   ("Cholesterol_Level", .num 180), ("Blood_Sugar_Level", .num 90)]

set_option maxHeartbeats 1000000 in
/-- C5 (amended): for every record whose keys are exactly the 21 training
feature fields — whatever its categorical/time values, including unseen
ones — `preprocess_input` succeeds and the vector length equals the fitted
output dimensionality.  The length is not determined solely by the fitted
state, though: it follows the record's key set, and the extra `user_id` key
that `/api/predict` actually passes along makes the vector one column too
long — see the counterexample. -/
theorem claim_c5_vector_length :
    ∀ (g o ms sh mp et wt bt : Value) (a sd sq pa st ci ai wh tt si bp cl bs : ℚ),
    rowLenOf (AppMongo.preprocess_input (some bundleEx)
      (validRecord g o ms sh mp et wt bt a sd sq pa st ci ai wh tt si bp cl bs)) =
    some (fittedOutputDim oheEx) := by
  intro g o ms sh mp et wt bt a sd sq pa st ci ai wh tt si bp cl bs
  simp

/-- C5 witness: the amended theorem at a concrete valid record. -/
theorem claim_c5_witness :
    rowLenOf (AppMongo.preprocess_input (some bundleEx) validRecordC) =
    some (fittedOutputDim oheEx) :=
  claim_c5_vector_length (.str "Male") (.str "Engineer") (.str "Single")
    (.str "No") (.str "Yes") (.str "Gym") (.str "7:00 AM") (.str "11:30 PM")
    35 7 8 3 4 2 1 8 1 5 120 180 90

/-- C5 counterexample: with the `user_id` key the endpoint actually passes,
the produced vector has 28 columns while the fitted dimensionality is 27 —
the length is determined by the input's key set, not solely by the fitted
state. -/
theorem claim_c5_counterexample :
    rowLenOf (AppMongo.preprocess_input (some bundleEx) validRecordUid) = some 28 ∧
    fittedOutputDim oheEx = 27 := ⟨rfl, rfl⟩

set_option maxHeartbeats 1000000 in
/-- C2 (amended): when a required categorical field (`Gender`) is entirely
absent, `preprocess_input` does not fail and does not validate: the one-hot
step is silently skipped, a 21-cell row with raw categorical values is
produced, and `/api/predict` then fails with a 500 server error from inside
the classifier call (not a 400 client input-validation error) — appending
nothing to the history. -/
theorem claim_c2_missing_field :
    ∀ (vo : Value) (now : Nat) (hist : List HistRec), valueToFloat vo = none →
    rowLenOf (AppMongo.preprocess_input (some bundleEx) (recMissingGender vo)) =
      some 21 ∧
    AppMongo.predict_stress (some bundleEx) (recMissingGender vo) now hist =
      (⟨500, none, none⟩, hist) := by
  intro vo now hist h
  constructor
  · simp [recMissingGender]
  · cases vo with
    | num q => simp [valueToFloat] at h
    | vnull => simp [recMissingGender]
    | str s =>
      simp only [valueToFloat] at h
      simp [recMissingGender, h, -parseFloat?]

/-- C2 witness: the amended theorem at the concrete raw value "Engineer"
(not float-convertible) with a nonempty prior history. -/
theorem claim_c2_witness :
    AppMongo.predict_stress (some bundleEx) (recMissingGender (.str "Engineer")) 3
      [⟨.num 9, "Low", [], 1⟩] =
    (⟨500, none, none⟩, [⟨.num 9, "Low", [], 1⟩]) :=
  (claim_c2_missing_field (.str "Engineer") 3 [⟨.num 9, "Low", [], 1⟩] (by decide)).2

/-- C2 counterexample: the response status for the missing-`Gender` record
is 500 (a server fault from the classifier), not the 400 client
input-validation error the claim requires. -/
theorem claim_c2_counterexample :
    (AppMongo.predict_stress (some bundleEx) (recMissingGender (.str "Engineer"))
      0 []).1.status = 500 ∧
    (AppMongo.predict_stress (some bundleEx) (recMissingGender (.str "Engineer"))
      0 []).1.status ≠ 400 := by
  exact ⟨rfl, by decide⟩

set_option maxHeartbeats 1000000 in
/-- C7 (amended): with every fitted numeric field present, exactly the
fields in both the fitted set and the record are scaled with the fit-time
parameters (`Age` ↦ (a−30)/5, `Sleep_Duration` ↦ (7−0)/1), and a present
field outside the fitted set (`Extra`) passes through unscaled; but when a
fitted numeric field (`Age`) is absent, the fitted scaler rejects the
reduced column set and the request fails with a 500 — absence is not
tolerated. -/
theorem claim_c7_scaling_selection :
    ∀ a e : ℚ,
    rowAt (AppMongo.preprocess_input (some bundleEx) (recC7 a e)) 0 =
      some (.num ((a - 30) / 5)) ∧
    rowAt (AppMongo.preprocess_input (some bundleEx) (recC7 a e)) 1 =
      some (.num 7) ∧
    rowAt (AppMongo.preprocess_input (some bundleEx) (recC7 a e)) 15 =
      some (.num e) ∧
    AppMongo.preprocess_input (some bundleEx) recMissingAge =
      .exn "The feature names should match those that were passed during fit" ∧
    (∀ (now : Nat) (hist : List HistRec),
      AppMongo.predict_stress (some bundleEx) recMissingAge now hist =
        (⟨500, none, none⟩, hist)) := by
  intro a e
  refine ⟨by simp [recC7], by simp [recC7], by simp [recC7], rfl, ?_⟩
  intro now hist
  simp [recMissingAge]

/-- C7 witness: the amended theorem at Age 35, Extra 2. -/
theorem claim_c7_witness :
    rowAt (AppMongo.preprocess_input (some bundleEx) (recC7 35 2)) 0 =
      some (.num ((35 - 30) / 5)) ∧
    AppMongo.predict_stress (some bundleEx) recMissingAge 0 [] =
      (⟨500, none, none⟩, []) :=
  ⟨(claim_c7_scaling_selection 35 2).1,
   (claim_c7_scaling_selection 35 2).2.2.2.2 0 []⟩

/-- C7 counterexample: a record lacking one fitted numeric field makes the
request fail (500) — refuting "its absence does not cause a failure". -/
theorem claim_c7_counterexample :
    (AppMongo.predict_stress (some bundleEx) recMissingAge 0 []).1.status = 500 := rfl

end EvalSimp

/-- C6 (amended): for nonzero fitted stddev, the scaled value is
`(value − mean) / stddev`; for a fitted stddev of 0 the scaler divides by 1
(sklearn's zero-replacement), so the result is always the finite value
`value − mean` — which is 0 exactly when the input equals the fitted mean
(as every training-time value of a constant column does), but not for other
inference-time inputs. -/
theorem claim_c6_zero_std : ∀ mean std v : ℚ,
    (std = 0 → scaleOne mean std v = v - mean ∧
      (scaleOne mean std v = 0 ↔ v = mean)) ∧
    (std ≠ 0 → scaleOne mean std v = (v - mean) / std) := by
  intro mean std v
  constructor
  · intro h
    subst h
    constructor
    · simp [scaleOne, fitScale]
    · simp [scaleOne, fitScale, sub_eq_zero]
  · intro h
    simp [scaleOne, fitScale, h]

/-- C6 witness: both clauses of the amended theorem at concrete parameters. -/
theorem claim_c6_witness :
    scaleOne 3 2 7 = (7 - 3) / 2 ∧ scaleOne 5 0 7 = 7 - 5 :=
  ⟨(claim_c6_zero_std 3 2 7).2 (by norm_num),
   ((claim_c6_zero_std 5 0 7).1 rfl).1⟩

/-- C6 counterexample: for a field with fitted mean 5 and stddev 0, the
input 7 scales to 2, not to the 0 the claim requires for every input
value. -/
theorem claim_c6_counterexample :
    scaleOne 5 0 7 = 2 ∧ scaleOne 5 0 7 ≠ 0 := by
  constructor
  · norm_num [scaleOne, fitScale]
  · norm_num [scaleOne, fitScale]

/-- C10: `GET /api/recommendations/<s>` capitalizes the route argument
(Python `str.capitalize`, so the match is case-insensitive) and returns
HTTP 200 with the fixed list and its length as `count` — 4 for Low, 6 for
Medium, 8 for High — when the capitalized argument is a known level, and
HTTP 400 with an error for every other argument. -/
theorem claim_c10_recommendations : ∀ s : String,
    (pyCapitalize s = "Low" →
      get_recommendations s = (200, some ("Low", lowRecs, 4))) ∧
    (pyCapitalize s = "Medium" →
      get_recommendations s = (200, some ("Medium", mediumRecs, 6))) ∧
    (pyCapitalize s = "High" →
      get_recommendations s = (200, some ("High", highRecs, 8))) ∧
    (pyCapitalize s ∉ (["Low", "Medium", "High"] : List String) →
      get_recommendations s = (400, none)) := by
  intro s
  refine ⟨fun h => ?_, fun h => ?_, fun h => ?_, fun h => ?_⟩
  · unfold get_recommendations
    rw [h]
    rfl
  · unfold get_recommendations
    rw [h]
    rfl
  · unfold get_recommendations
    rw [h]
    rfl
  · simp only [List.mem_cons, List.not_mem_nil, or_false, not_or] at h
    obtain ⟨h1, h2, h3⟩ := h
    have e1 : (("Low" : String) == pyCapitalize s) = false := by
      simpa using fun e => h1 e.symm
    have e2 : (("Medium" : String) == pyCapitalize s) = false := by
      simpa using fun e => h2 e.symm
    have e3 : (("High" : String) == pyCapitalize s) = false := by
      simpa using fun e => h3 e.symm
    simp [get_recommendations, RECOMMENDATIONS, List.find?, e1, e2, e3]

/-- C10 witness: the theorem at mixed-case known levels and at an unknown
argument. -/
theorem claim_c10_witness :
    get_recommendations "LOW" = (200, some ("Low", lowRecs, 4)) ∧
    get_recommendations "mEdIuM" = (200, some ("Medium", mediumRecs, 6)) ∧
    get_recommendations "high" = (200, some ("High", highRecs, 8)) ∧
    get_recommendations "banana" = (400, none) :=
  ⟨(claim_c10_recommendations "LOW").1 (by decide),
   (claim_c10_recommendations "mEdIuM").2.1 (by decide),
   (claim_c10_recommendations "high").2.2.1 (by decide),
   (claim_c10_recommendations "banana").2.2.2 (by decide)⟩

/-- Rows of a class-encoded training set carrying a given label code. -/
def labelCount (l : Nat) (rows : List (α × Option Nat)) : Nat :=
  rows.countP (fun r => r.2 == some l)

/-- stress_model.py:134: the size of the smallest of the three encoded
classes. -/
def StressModel.minClassSize (rows : List (α × String)) : Nat :=
  let data := rows.map (fun r =>
    (r.1, (StressModel.target_mapping.find? (fun p => p.1 == r.2)).map Prod.snd))
  min (min (data.filter (fun r => r.2 == some 1)).length
           (data.filter (fun r => r.2 == some 2)).length)
      (data.filter (fun r => r.2 == some 3)).length

/-- C8 (amended): `stress_model.preprocess_data` balances as claimed — it
determines the minority class size and downsamples every class (seeded,
without replacement) to exactly that size, so the set handed to model
fitting has exactly equal class counts; this never fails.
`run_projectml.py`'s balancing cell instead downsamples to the `Low` class's
size and discards its result — see the counterexample. -/
theorem claim_c8_class_balancing : ∀ (rows : List (α × String)), ∃ b,
    StressModel.balance rows = Except.ok b ∧
    labelCount 1 b = StressModel.minClassSize rows ∧
    labelCount 2 b = StressModel.minClassSize rows ∧
    labelCount 3 b = StressModel.minClassSize rows := by
  intro rows
  simp only [StressModel.balance, StressModel.minClassSize]
  set data := rows.map (fun r =>
    (r.1, (StressModel.target_mapping.find? (fun p => p.1 == r.2)).map Prod.snd)) with hdata
  set dl := data.filter (fun r => r.2 == some 1) with hdl
  set dm := data.filter (fun r => r.2 == some 2) with hdm
  set dh := data.filter (fun r => r.2 == some 3) with hdh
  set m := min (min dl.length dm.length) dh.length with hm
  have hml : m ≤ dl.length :=
    le_trans (Nat.min_le_left _ _) (Nat.min_le_left _ _)
  have hmm : m ≤ dm.length :=
    le_trans (Nat.min_le_left _ _) (Nat.min_le_right _ _)
  have hmh : m ≤ dh.length := Nat.min_le_right _ _
  have r1 : StressModel.resample dl m = .ok (dl.take m) := by
    rw [StressModel.resample, if_pos hml]
  have r2 : StressModel.resample dm m = .ok (dm.take m) := by
    rw [StressModel.resample, if_pos hmm]
  have r3 : StressModel.resample dh m = .ok (dh.take m) := by
    rw [StressModel.resample, if_pos hmh]
  rw [r1, r2, r3]
  refine ⟨dl.take m ++ dm.take m ++ dh.take m, rfl, ?_, ?_, ?_⟩
  · unfold labelCount
    rw [List.countP_append, List.countP_append]
    have c1 : (dl.take m).countP (fun r => r.2 == some 1) = (dl.take m).length :=
      List.countP_eq_length.mpr
        (fun a ha => (List.mem_filter.mp (List.take_subset _ _ ha)).2)
    have c2 : (dm.take m).countP (fun r => r.2 == some 1) = 0 :=
      List.countP_eq_zero.mpr (fun a ha => by
        have h2 := (List.mem_filter.mp (List.take_subset _ _ ha)).2
        simp only [beq_iff_eq] at h2 ⊢
        simp [h2])
    have c3 : (dh.take m).countP (fun r => r.2 == some 1) = 0 :=
      List.countP_eq_zero.mpr (fun a ha => by
        have h2 := (List.mem_filter.mp (List.take_subset _ _ ha)).2
        simp only [beq_iff_eq] at h2 ⊢
        simp [h2])
    rw [c1, c2, c3, List.length_take]
    omega
  · unfold labelCount
    rw [List.countP_append, List.countP_append]
    have c1 : (dm.take m).countP (fun r => r.2 == some 2) = (dm.take m).length :=
      List.countP_eq_length.mpr
        (fun a ha => (List.mem_filter.mp (List.take_subset _ _ ha)).2)
    have c2 : (dl.take m).countP (fun r => r.2 == some 2) = 0 :=
      List.countP_eq_zero.mpr (fun a ha => by
        have h2 := (List.mem_filter.mp (List.take_subset _ _ ha)).2
        simp only [beq_iff_eq] at h2 ⊢
        simp [h2])
    have c3 : (dh.take m).countP (fun r => r.2 == some 2) = 0 :=
      List.countP_eq_zero.mpr (fun a ha => by
        have h2 := (List.mem_filter.mp (List.take_subset _ _ ha)).2
        simp only [beq_iff_eq] at h2 ⊢
        simp [h2])
    rw [c1, c2, c3, List.length_take]
    omega
  · unfold labelCount
    rw [List.countP_append, List.countP_append]
    have c1 : (dh.take m).countP (fun r => r.2 == some 3) = (dh.take m).length :=
      List.countP_eq_length.mpr
        (fun a ha => (List.mem_filter.mp (List.take_subset _ _ ha)).2)
    have c2 : (dl.take m).countP (fun r => r.2 == some 3) = 0 :=
      List.countP_eq_zero.mpr (fun a ha => by
        have h2 := (List.mem_filter.mp (List.take_subset _ _ ha)).2
        simp only [beq_iff_eq] at h2 ⊢
        simp [h2])
    have c3 : (dm.take m).countP (fun r => r.2 == some 3) = 0 :=
      List.countP_eq_zero.mpr (fun a ha => by
        have h2 := (List.mem_filter.mp (List.take_subset _ _ ha)).2
        simp only [beq_iff_eq] at h2 ⊢
        simp [h2])
    rw [c1, c2, c3, List.length_take]
    omega

/-- A five-row labeled set whose minority class is `Medium` (counts:
Low 2, Medium 1, High 2). -/
def rowsMedMinority : List (Nat × String) :=
  [(1, "Low"), (2, "Low"), (3, "Medium"), (4, "High"), (5, "High")]

/-- C8 witness: the amended theorem at `rowsMedMinority` — the balanced set
exists and has exactly one row per class. -/
theorem claim_c8_witness :
    (StressModel.balance rowsMedMinority).toOption.map (labelCount 1) = some 1 := by
  obtain ⟨b, hb, h1, h2, h3⟩ := claim_c8_class_balancing rowsMedMinority
  rw [hb]
  have hmin : StressModel.minClassSize rowsMedMinority = 1 := by decide
  show some (labelCount 1 b) = some 1
  rw [h1, hmin]

/-- C8 counterexample: on the same set, `run_projectml.py`'s balancing cell
asks `resample` for 2 `Medium` rows out of 1 without replacement and raises,
instead of downsampling every class to the minority count 1. -/
theorem claim_c8_counterexample :
    RunProjectml.balance rowsMedMinority =
      Except.error "Cannot sample more samples than the population when replace is False" := rfl

theorem predict_hist_mongo (md : Option ModelData) (d : Record) (now : Nat)
    (s : List HistRec) :
    ((AppMongo.predict_stress md d now s).2 = s ∨
      ∃ rec, (AppMongo.predict_stress md d now s).2 = s ++ [rec]) ∧
    ((AppMongo.predict_stress md d now s).1.status ≠ 200 →
      (AppMongo.predict_stress md d now s).2 = s) := by
  unfold AppMongo.predict_stress
  cases md with
  | none => simp
  | some m =>
    cases hp : AppMongo.preprocess_input (some m) d with
    | pynone => simp [hp]
    | exn e => simp [hp]
    | ok row =>
      cases hr : runModelAndProba m row with
      | error e => simp [hp, hr]
      | ok pr =>
        obtain ⟨prediction, probs⟩ := pr
        cases hd2 : AppMongo.decode_prediction m.label_encoders prediction with
        | error e => simp [hp, hr, hd2]
        | ok lbl =>
          by_cases ht : pyTruthy (rget? d "user_id")
          · simp [hp, hr, hd2, ht]
          · simp [hp, hr, hd2, ht]

theorem predict_hist_sqlite (md : Option ModelData) (d : Record) (now : Nat)
    (s : List HistRec) :
    ((AppSqlite.predict_stress md d now s).2 = s ∨
      ∃ rec, (AppSqlite.predict_stress md d now s).2 = s ++ [rec]) ∧
    ((AppSqlite.predict_stress md d now s).1.status ≠ 200 →
      (AppSqlite.predict_stress md d now s).2 = s) := by
  unfold AppSqlite.predict_stress
  cases md with
  | none => simp
  | some m =>
    cases hp : AppSqlite.preprocess_input (some m) d with
    | pynone => simp [hp]
    | exn e => simp [hp]
    | ok row =>
      cases hr : runModelAndProba m row with
      | error e => simp [hp, hr]
      | ok pr =>
        obtain ⟨prediction, probs⟩ := pr
        cases hd2 : AppSqlite.decode_prediction m.label_encoders prediction with
        | error e => simp [hp, hr, hd2]
        | ok lbl =>
          by_cases ht : pyTruthy (rget? d "user_id")
          · simp [hp, hr, hd2, ht]
          · simp [hp, hr, hd2, ht]

/-- C9: every endpoint that touches the per-user prediction history either
appends at most one new record at the end — leaving all existing records in
place, never modifying or deleting one — or leaves the store untouched; and
in both serving variants a `/api/predict` request that does not succeed
(status ≠ 200: preprocessing, prediction, or decoding error) appends
nothing. -/
theorem claim_c9_history_append_only : ∀ (op : HistOp) (s : List HistRec),
    (∃ t, (histStep op s).2 = s ++ t ∧ t.length ≤ 1) ∧
    (∀ md d now, (AppMongo.predict_stress md d now s).1.status ≠ 200 →
        (AppMongo.predict_stress md d now s).2 = s) ∧
    (∀ md d now, (AppSqlite.predict_stress md d now s).1.status ≠ 200 →
        (AppSqlite.predict_stress md d now s).2 = s) := by
  intro op s
  refine ⟨?_, fun md d now => (predict_hist_mongo md d now s).2,
          fun md d now => (predict_hist_sqlite md d now s).2⟩
  cases op with
  | mongoPredict md d now =>
    rcases (predict_hist_mongo md d now s).1 with h | ⟨rec, h⟩
    · exact ⟨[], by simpa [histStep] using h, by simp⟩
    · exact ⟨[rec], by simpa [histStep] using h, by simp⟩
  | sqlitePredict md d now =>
    rcases (predict_hist_sqlite md d now s).1 with h | ⟨rec, h⟩
    · exact ⟨[], by simpa [histStep] using h, by simp⟩
    · exact ⟨[rec], by simpa [histStep] using h, by simp⟩
  | forecast uid => exact ⟨[], by simp [histStep], by simp⟩
  | history uid => exact ⟨[], by simp [histStep], by simp⟩
  | weekly uid now => exact ⟨[], by simp [histStep], by simp⟩
  | monthly uid now => exact ⟨[], by simp [histStep], by simp⟩
  | beforeAfter uid => exact ⟨[], by simp [histStep], by simp⟩

/-- C9 witness: a failing `/api/predict` (no model bundle loaded, status
500) appends nothing to a concrete store. -/
theorem claim_c9_witness :
    (AppMongo.predict_stress none [("user_id", .str "u1")] 7
      [⟨.str "u1", "Low", [], 1⟩]).2 = [⟨.str "u1", "Low", [], 1⟩] :=
  (claim_c9_history_append_only (.mongoPredict none [] 0)
    [⟨.str "u1", "Low", [], 1⟩]).2.1 none [("user_id", .str "u1")] 7 (by decide)
